import Mathlib

set_option autoImplicit false

namespace BevyRemoteInspector

/-! Shallow embedding of the remote entity-graph client of bevy_remote_inspector
(src/src/app.rs, src/src/helper.rs, src/src/main.rs).

Conventions of the embedding:
- serde_json::Value is modeled by JVal; JSON numbers are modeled as integers, which
  covers every value the verified claims touch (entity bits, component payload shapes).
- HashMap is modeled by an association list with overwriting insert, so that the
  last-write-wins behavior of collecting an iterator into a HashMap is explicit.
- Rust panics (unwrap and expect on external data) are modeled by Option.none of the
  surrounding operation.
- The global atomic request-id COUNTER of helper.rs is made an explicit state argument
  threaded through create_request; it is initialized to 1 and fetch_add returns the
  previous value.
- The external JSON parser (serde_json::from_str composed with the jsonrpc_types
  envelope deserializer) is not code of this repository; a raw response body is
  therefore modeled at the precision the code observes it: body missing (text()
  returning None), body text rejected as envelope JSON, or a structured envelope. -/

/-- JSON-like structured value, modeling serde_json::Value. -/
inductive JVal where
  | null
  | bool (b : Bool)
  | num (n : Int)
  | str (s : String)
  | arr (xs : List JVal)
  | obj (fields : List (String × JVal))

/-- serde_json::Value::as_u64: Some exactly for integer numbers in u64 range. -/
def JVal.asU64 : JVal → Option Nat
  | .num n => if 0 ≤ n ∧ n < 2 ^ 64 then some n.toNat else none
  | _ => none

/-- serde_json::Value::as_array. -/
def JVal.asArray : JVal → Option (List JVal)
  | .arr xs => some xs
  | _ => none

/-- serde_json::Value::as_object. -/
def JVal.asObject : JVal → Option (List (String × JVal))
  | .obj fs => some fs
  | _ => none

/-- serde_json::Value::as_str. -/
def JVal.asStr : JVal → Option String
  | .str s => some s
  | _ => none

/-- Lookup in a string-keyed component map (HashMap String Value as an association list). -/
def slookup : List (String × JVal) → String → Option JVal
  | [], _ => none
  | (k, v) :: rest, key => if k = key then some v else slookup rest key

/-- HashMap::contains_key on a component map. -/
def containsKey (m : List (String × JVal)) (key : String) : Bool :=
  (slookup m key).isSome

/-- One query match result (app.rs struct BrpQueryRow): an entity id (bevy Entity,
serialized as its raw u64 bits, here a Nat) with the requested component values and
the boolean-only containment results. -/
structure BrpQueryRow where
  entity : Nat
  components : List (String × JVal)
  has : List (String × JVal)

/-- The entity-keyed snapshot held by the Store: HashMap Entity BrpQueryRow as an
association list with unique keys maintained by insertRow. -/
abbrev Snapshot := List (Nat × BrpQueryRow)

/-- HashMap insert: overwrite the binding of the key when present, append otherwise. -/
def insertRow : Snapshot → Nat → BrpQueryRow → Snapshot
  | [], k, v => [(k, v)]
  | (k0, v0) :: rest, k, v =>
    if k0 = k then (k, v) :: rest else (k0, v0) :: insertRow rest k v

/-- HashMap get on the snapshot. -/
def findRow : Snapshot → Nat → Option BrpQueryRow
  | [], _ => none
  | (k, v) :: rest, key => if k = key then some v else findRow rest key

/-- ToHashMap::to_hash_map (app.rs lines 23-27): collect the decoded row sequence into
the entity-keyed map; inserting row after row makes later duplicates overwrite earlier. -/
def to_hash_map (rows : List BrpQueryRow) : Snapshot :=
  rows.foldl (fun m r => insertRow m r.entity r) []

/-- The last row of the sequence carrying a given entity id, the specification-side
description of last-write-wins used to characterize to_hash_map. -/
def lastRowFor (rows : List BrpQueryRow) (id : Nat) : Option BrpQueryRow :=
  rows.foldl (fun acc r => if r.entity = id then some r else acc) none

/-- Deserialization of one BrpQueryRow from a JSON value, following the derived serde
Deserialize: an object with an entity field (u64 bits), a components field (object of
arbitrary values), and an optional has field defaulting to empty. Unknown extra fields
are ignored, as serde does by default. -/
def decodeRow : JVal → Option BrpQueryRow
  | .obj fields =>
    match slookup fields "entity" with
    | none => none
    | some ev =>
      match ev.asU64 with
      | none => none
      | some e =>
        match slookup fields "components" with
        | none => none
        | some cv =>
          match cv.asObject with
          | none => none
          | some comps =>
            match (match slookup fields "has" with
                   | none => some ([] : List (String × JVal))
                   | some hv => hv.asObject) with
            | none => none
            | some hs => some { entity := e, components := comps, has := hs }
  | _ => none

/-- Deserialization of BrpQueryResponse, a Vec of BrpQueryRow. -/
def decodeRows : JVal → Option (List BrpQueryRow)
  | .arr xs => xs.mapM decodeRow
  | _ => none

/-- jsonrpc_types Output: the success vs failure discriminant of one response. -/
inductive RpcOutput where
  | success (result : JVal)
  | failure (code : Int) (message : String)

/-- jsonrpc_types v2 Response: a single output or a batch of outputs. -/
inductive RpcResponse where
  | single (o : RpcOutput)
  | batch (os : List RpcOutput)

/-- A raw HTTP response body at the precision the code observes it. -/
inductive ResponseBody where
  | noText
  | invalidJson (raw : String)
  | envelope (e : RpcResponse)

/-- The outcome ehttp::fetch delivers to the completion callback: a transport error,
or an HTTP response with its ok flag and body. -/
inductive FetchOutcome where
  | transportErr (msg : String)
  | httpResponse (ok : Bool) (body : ResponseBody)

/-- Display of a jsonrpc_types Failure, modeling the diagnostic string built from the
error envelope; the exact text is presentation-only, the claims need a nonempty
human-readable diagnostic. -/
def failureToString (code : Int) (message : String) : String :=
  "RPC failure " ++ toString code ++ ": " ++ message

/-- Download status (app.rs enum Download). -/
inductive Download where
  | none
  | inProgress
  | done

/-- The shared mutable state of TemplateApp the fetch path touches: DownloadStatus,
the Store snapshot, and ErrorState (app.rs fields download, components, error_info). -/
structure AppState where
  download : Download
  components : Snapshot
  errorInfo : Option String

/-- The fetch completion callback (app.rs lines 284-314) as a state transformer.
The callback first sets download to Done; on a transport error it records a debug
diagnostic; on a non-ok HTTP response it records a debug diagnostic; on an ok response
it unwraps text(), unwraps the envelope parse, silently returns on a batch envelope,
records the failure display on a failure envelope, and on success unwraps the row
decode, replaces the snapshot wholesale and clears the error. Option.none models the
unwrap panics on missing text, invalid envelope JSON, and undecodable success payload. -/
def fetchCallback (st : AppState) (resp : FetchOutcome) : Option AppState :=
  let st1 : AppState := { st with download := Download.done }
  match resp with
  | .transportErr msg =>
      some { st1 with errorInfo := some ("transport error: " ++ msg) }
  | .httpResponse ok body =>
    if ok then
      match body with
      | .noText => none
      | .invalidJson _ => none
      | .envelope (.batch _) => some st1
      | .envelope (.single (.failure code message)) =>
          some { st1 with errorInfo := some (failureToString code message) }
      | .envelope (.single (.success result)) =>
          match decodeRows result with
          | none => none
          | some rows =>
              some { st1 with components := to_hash_map rows, errorInfo := none }
    else
      some { st1 with errorInfo := some "HTTP error response" }

/-- A JSON-RPC request envelope (bevy BrpRequest). -/
structure BrpRequest where
  jsonrpc : String
  method : String
  id : Option Nat
  params : Option JVal

/-- Initial value of the process-wide request-id COUNTER (helper.rs line 9). -/
def counterInit : Nat := 1

/-- helper.rs create_request (lines 12-27), with the atomic COUNTER made explicit
state: the request carries the current counter as id and the counter advances by one
(fetch_add returns the previous value). Parameters arrive already serialized to a JSON
value; for JSON-representable parameters that serialization never fails. -/
def create_request (counter : Nat) (params : Option JVal) (method : String) :
    BrpRequest × Nat :=
  ({ jsonrpc := "2.0", method := method, id := some counter, params := params },
   counter + 1)

/-- helper.rs parse (lines 53-75), specialized by a decode function for the target
type. Missing body text yields an error result; a body that is not valid envelope JSON
is unwrapped, modeled as Option.none (a panic); a batch envelope yields the error
NOT ONE; a failure envelope yields its display as error; a success payload is decoded,
with a decode error string on failure. -/
def parse {α : Type} (dec : JVal → Option α) (body : ResponseBody) :
    Option (Except String α) :=
  match body with
  | .noText => some (Except.error "Cannot parse text")
  | .invalidJson _ => none
  | .envelope (.batch _) => some (Except.error "NOT ONE")
  | .envelope (.single (.failure code message)) =>
      some (Except.error (failureToString code message))
  | .envelope (.single (.success result)) =>
      match dec result with
      | some v => some (Except.ok v)
      | none => some (Except.error "decode error")

/-- Component-type key of bevy_core Name. -/
def nameKey : String := "bevy_core::name::Name"

/-- Component-type key of the parent back-reference. -/
def parentKey : String := "bevy_hierarchy::components::parent::Parent"

/-- Component-type key of the children list. -/
def childrenKey : String := "bevy_hierarchy::components::children::Children"

/-- One unit of rendered output: a collapsing header with its expanded body, a
heading, a plain label, or a separator line. -/
inductive RenderItem where
  | header (title : String) (body : List RenderItem)
  | heading (text : String)
  | label (text : String)
  | separator

mutual
/-- Pretty JSON serialization (serde_json::to_string_pretty). The only property the
code depends on is that the output equals the two-character empty-object string
exactly for the empty object; the rest of the text is display-only. -/
def jsonPretty : JVal → String
  | .null => "null"
  | .bool true => "true"
  | .bool false => "false"
  | .num n => toString n
  | .str s => "\"" ++ s ++ "\""
  | .arr xs => "[" ++ jsonPrettyList xs ++ "]"
  | .obj [] => "\x7b\x7d"
  | .obj (f :: fs) => "\x7b " ++ jsonPrettyFields (f :: fs) ++ " \x7d"

/-- Comma-separated pretty printing of array elements. -/
def jsonPrettyList : List JVal → String
  | [] => ""
  | [x] => jsonPretty x
  | x :: y :: rest => jsonPretty x ++ ", " ++ jsonPrettyList (y :: rest)

/-- Comma-separated pretty printing of object fields. -/
def jsonPrettyFields : List (String × JVal) → String
  | [] => ""
  | [(k, v)] => "\"" ++ k ++ "\": " ++ jsonPretty v
  | (k, v) :: f :: fs =>
    "\"" ++ k ++ "\": " ++ jsonPretty v ++ ", " ++ jsonPrettyFields (f :: fs)
end

/-- One entry of the generic component dump (app.rs lines 129-149): the reserved
Parent and Children keys are skipped; a value that pretty-prints to the empty object
becomes a bare strong label; anything else becomes a collapsing header with the pretty
JSON inside. serde_json::to_string_pretty cannot fail on a Value, so the continue on
its error branch is dead. -/
def componentItem (key : String) (field : JVal) : List RenderItem :=
  if key = parentKey then []
  else if key = childrenKey then []
  else
    let json := jsonPretty field
    if json = "\x7b\x7d" then [RenderItem.label key]
    else [RenderItem.header key [RenderItem.label json]]

/-- The generic component list of an entity: the Components heading followed by one
entry per component of the bag (app.rs lines 128-149). -/
def componentsSection (item : BrpQueryRow) : List RenderItem :=
  RenderItem.heading "Components" :: item.components.flatMap (fun p => componentItem p.1 p.2)

/-- Name extraction (app.rs lines 102-108): when the Name value is not an object the
fallback text NONE is used; when it is an object, the code unwraps the name field and
unwraps its string view, so an object without a name field or with a non-string name
is a panic, modeled as Option.none. -/
def nameFromVal (v : JVal) : Option String :=
  match v.asObject with
  | none => some "NONE"
  | some fields =>
    match slookup fields "name" with
    | none => none
    | some nv => nv.asStr

/-- Entity display text. Bevy formats an Entity from its index and generation; the
claims never inspect this text, so it is modeled as the decimal of the bits. -/
def entityLabel (e : Nat) : String := toString e

/-- The collapsing-header title of an entity (app.rs lines 101-108): the entity text,
extended with the extracted name when a Name component is present. Option.none models
the panic inside the name extraction. -/
def entityHeaderLabel (e : Nat) (item : BrpQueryRow) : Option String :=
  match slookup item.components nameKey with
  | none => some (entityLabel e)
  | some v =>
    match nameFromVal v with
    | none => none
    | some n => some (entityLabel e ++ ": " ++ n)

mutual
/-- TemplateApp draw_entity (app.rs lines 88-152) as a pure rendering function.
A missing snapshot entry returns with no output; an empty bag under the hide-empty
flag returns with no output; otherwise a collapsing header is emitted whose body
renders the Children section (when a Children component holds an array, recursing
through the u64 entries) followed by the generic component list; a Children component
whose value is not an array returns early from the body closure, emitting neither
section. Option.none models a panic; fuel bounds the recursion depth of the embedding
(the Rust recursion is unbounded) and every claim is stated with ample fuel. -/
def draw_entity (skipEmpty : Bool) (content : Snapshot) : Nat → Nat → Option (List RenderItem)
  | fuel, e =>
    match findRow content e with
    | none => some []
    | some item =>
      if skipEmpty && item.components.isEmpty then some []
      else
        match entityHeaderLabel e item with
        | none => none
        | some idLabel =>
          match (match slookup item.components childrenKey with
            | some childrenVal =>
              match childrenVal.asArray with
              | some xs =>
                match draw_children skipEmpty content fuel (xs.filterMap JVal.asU64) with
                | none => none
                | some subs =>
                  some (RenderItem.heading "Children" :: RenderItem.separator ::
                        (subs ++ componentsSection item))
              | none => some []
            | none => some (componentsSection item)) with
          | none => none
          | some body => some [RenderItem.header idLabel body, RenderItem.separator]
termination_by fuel _ => (fuel, 1, 0)

/-- The children loop of draw_entity (app.rs lines 123-125): recursively render each
identifier of the children array against the same snapshot, concatenating the output;
the fuel consumed by descending one level is accounted here. -/
def draw_children (skipEmpty : Bool) (content : Snapshot) : Nat → List Nat → Option (List RenderItem)
  | _, [] => some []
  | 0, _ :: _ => none
  | fuel + 1, c :: rest =>
    match draw_entity skipEmpty content fuel c,
          draw_children skipEmpty content (fuel + 1) rest with
    | some a, some b => some (a ++ b)
    | _, _ => none
termination_by fuel l => (fuel, 0, l.length)
end

/-- Root computation (app.rs lines 350-363): the entities of the snapshot whose
component bag does not contain the parent back-reference component. -/
def computeRoots (content : Snapshot) : List Nat :=
  content.filterMap (fun p => if containsKey p.2.components parentKey then none else some p.1)

/-- Modelled from the spec: the mutate/destroy operation is absent from src/ (no
destroy request is issued anywhere in the three source files). Spec section 4.2:
issuing destroy is a fire-and-forget request carrying the target EntityId, so issue
builds a request envelope through the codec and leaves the application state
unchanged (the Store is not locally patched). -/
def destroyIssue (st : AppState) (counter : Nat) (target : Nat) :
    AppState × BrpRequest × Nat :=
  (st, create_request counter (some (JVal.num (Int.ofNat target))) "bevy/destroy")

/-- Modelled from the spec: completion of a destroy request, success or failure
alike, only updates DownloadStatus; the Store is not locally patched and the next
fetch is the source of truth for whether the entity is actually gone. -/
def destroyCompletion (st : AppState) (_success : Bool) : AppState :=
  { st with download := Download.done }

/-- A concrete scenario snapshot: entity 0 has a Children component listing entities
1 and 2, entities 1 and 2 carry a Parent component referencing 0, and entity 0 has no
Parent component. -/
def rootsScenario : Snapshot :=
  [(0, { entity := 0,
         components := [(childrenKey, JVal.arr [JVal.num 1, JVal.num 2])], has := [] }),
   (1, { entity := 1, components := [(parentKey, JVal.num 0)], has := [] }),
   (2, { entity := 2, components := [(parentKey, JVal.num 0)], has := [] })]

/-! Theorems. -/

theorem findRow_insertRow (m : Snapshot) (k : Nat) (v : BrpQueryRow) (key : Nat) :
    findRow (insertRow m k v) key = if key = k then some v else findRow m key := by
  induction m with
  | nil =>
    by_cases h : key = k
    · simp [insertRow, findRow, h]
    · simp [insertRow, findRow, h, Ne.symm h]
  | cons hd tl ih =>
    obtain ⟨k0, v0⟩ := hd
    by_cases h0 : k0 = k
    · subst h0
      by_cases h : key = k0
      · simp [insertRow, findRow, h]
      · simp [insertRow, findRow, h, Ne.symm h]
    · by_cases h : k0 = key
      · subst h
        simp [insertRow, findRow, h0, fun hh : k0 = k => h0 hh]
      · simp [insertRow, findRow, h0, h, ih]

theorem findRow_foldl_insert (rows : List BrpQueryRow) (m : Snapshot) (id : Nat) :
    findRow (rows.foldl (fun m r => insertRow m r.entity r) m) id =
      rows.foldl (fun acc r => if r.entity = id then some r else acc) (findRow m id) := by
  induction rows generalizing m with
  | nil => rfl
  | cons r rest ih =>
    simp only [List.foldl_cons]
    rw [ih, findRow_insertRow]
    by_cases h : id = r.entity
    · simp [h]
    · simp [h, Ne.symm h]

theorem findRow_to_hash_map (rows : List BrpQueryRow) (id : Nat) :
    findRow (to_hash_map rows) id = lastRowFor rows id := by
  rw [to_hash_map, lastRowFor, findRow_foldl_insert]
  rfl

/-- C8: converting the decoded row sequence into the entity-keyed snapshot is a total
function (so duplicate entity identifiers never crash it), and the resulting map binds
every identifier to the last row of the sequence that carried it; concretely, two rows
sharing entity 5 leave the second one in the map. -/
theorem C8_to_hash_map_last_write_wins :
    (∀ (rows : List BrpQueryRow) (id : Nat),
      findRow (to_hash_map rows) id = lastRowFor rows id) ∧
    findRow (to_hash_map [{ entity := 5, components := [], has := [] },
                          { entity := 5, components := [("x", JVal.null)], has := [] }]) 5 =
      some { entity := 5, components := [("x", JVal.null)], has := [] } :=
  ⟨findRow_to_hash_map, rfl⟩

/-- C4: the request-id counter starts at 1 and each call to the request builder emits
the current counter as the request id and advances the counter by exactly one, so
three sequential calls produce ids 1, 2 and 3 regardless of the method names and
parameters passed. -/
theorem C4_request_id_counter (m1 m2 m3 : String) (p1 p2 p3 : Option JVal) :
    counterInit = 1 ∧
    (create_request counterInit p1 m1).1.id = some 1 ∧
    (create_request (create_request counterInit p1 m1).2 p2 m2).1.id = some 2 ∧
    (create_request (create_request (create_request counterInit p1 m1).2 p2 m2).2
        p3 m3).1.id = some 3 ∧
    (∀ (c : Nat) (p : Option JVal) (m : String), (create_request c p m).2 = c + 1) :=
  ⟨rfl, rfl, rfl, rfl, fun _ _ _ => rfl⟩

/-- C1: a fetch completion that decodes successfully replaces the snapshot wholesale
with exactly the map built from the decoded rows, independently of the previous
snapshot, and clears ErrorState; the resulting map binds each id to the last decoded
row carrying it. -/
theorem C1_fetch_success_replaces_snapshot (st : AppState) (result : JVal)
    (rows : List BrpQueryRow) (h : decodeRows result = some rows) :
    fetchCallback st (FetchOutcome.httpResponse true
        (ResponseBody.envelope (RpcResponse.single (RpcOutput.success result)))) =
      some { download := Download.done, components := to_hash_map rows,
             errorInfo := none } ∧
    ∀ id, findRow (to_hash_map rows) id = lastRowFor rows id := by
  refine ⟨?_, fun id => findRow_to_hash_map rows id⟩
  simp [fetchCallback, h]

/-- Witness for C1 at a concrete successful completion over a nonempty stale state. -/
theorem C1_witness :
    decodeRows (JVal.arr [JVal.obj [("entity", JVal.num 9),
        ("components", JVal.obj [("k", JVal.null)])]]) =
      some [{ entity := 9, components := [("k", JVal.null)], has := [] }] ∧
    fetchCallback
      { download := Download.inProgress,
        components := [(3, { entity := 3, components := [], has := [] })],
        errorInfo := some "old error" }
      (FetchOutcome.httpResponse true (ResponseBody.envelope (RpcResponse.single
        (RpcOutput.success (JVal.arr [JVal.obj [("entity", JVal.num 9),
          ("components", JVal.obj [("k", JVal.null)])]]))))) =
      some { download := Download.done,
             components := to_hash_map
               [{ entity := 9, components := [("k", JVal.null)], has := [] }],
             errorInfo := none } :=
  ⟨rfl, (C1_fetch_success_replaces_snapshot
      { download := Download.inProgress,
        components := [(3, { entity := 3, components := [], has := [] })],
        errorInfo := some "old error" }
      (JVal.arr [JVal.obj [("entity", JVal.num 9),
        ("components", JVal.obj [("k", JVal.null)])]])
      [{ entity := 9, components := [("k", JVal.null)], has := [] }] rfl).1⟩

/-- C2: evaluation of the fetch callback at a completion whose success payload does
not decode as a row sequence. The callback unwraps the row decode, so the embedding
returns none, the panic marker: ErrorState is not written and the claim that every
decode failure records a diagnostic and preserves the snapshot fails on the code. -/
theorem C2_decode_failure_panics :
    fetchCallback
      { download := Download.inProgress,
        components := [(7, { entity := 7, components := [], has := [] })],
        errorInfo := none }
      (FetchOutcome.httpResponse true (ResponseBody.envelope (RpcResponse.single
        (RpcOutput.success (JVal.num 5))))) = none := rfl

/-- C7: evaluation of helper.rs parse at a response body that is not valid envelope
JSON. parse unwraps the envelope parse, so the embedding returns none, the panic
marker, instead of a ProtocolError-style error result. -/
theorem C7_invalid_envelope_json_panics :
    parse decodeRows (ResponseBody.invalidJson "plain text, no envelope") = none := rfl

/-- C9: issuing a destroy and its completion leave the snapshot and ErrorState
untouched, the target entity lookup is unchanged, and the completed state differs
from the initial one only in DownloadStatus. -/
theorem C9_destroy_leaves_store_untouched (st : AppState) (counter target : Nat)
    (success : Bool) :
    (destroyCompletion (destroyIssue st counter target).1 success).components =
      st.components ∧
    (destroyCompletion (destroyIssue st counter target).1 success).errorInfo =
      st.errorInfo ∧
    findRow (destroyCompletion (destroyIssue st counter target).1 success).components
        target = findRow st.components target ∧
    destroyCompletion (destroyIssue st counter target).1 success =
      { st with download := Download.done } :=
  ⟨rfl, rfl, rfl, rfl⟩

/-- C5: the computed root set is exactly the set of snapshot entities whose component
bag does not contain the parent back-reference component; in the concrete scenario
where entity 0 lists children 1 and 2 and entities 1 and 2 carry Parent components,
the roots include 0 and exclude 1 and 2. -/
theorem C5_roots_are_parentless :
    (∀ (content : Snapshot) (e : Nat),
      e ∈ computeRoots content ↔
        ∃ row, (e, row) ∈ content ∧ containsKey row.components parentKey = false) ∧
    (0 ∈ computeRoots rootsScenario ∧ 1 ∉ computeRoots rootsScenario ∧
      2 ∉ computeRoots rootsScenario) := by
  constructor
  · intro content e
    simp only [computeRoots, List.mem_filterMap]
    constructor
    · rintro ⟨⟨k, row⟩, hmem, hf⟩
      by_cases hp : containsKey row.components parentKey = true
      · simp [hp] at hf
      · simp only [hp, if_neg, Bool.not_eq_true] at hf
        simp only [Option.some.injEq] at hf
        subst hf
        exact ⟨row, hmem, by simpa using hp⟩
    · rintro ⟨row, hmem, hp⟩
      exact ⟨(e, row), hmem, by simp [hp]⟩
  · exact ⟨by decide, by decide, by decide⟩

/-- C6: a child identifier absent from the snapshot renders to nothing: the traversal
for it returns immediately with empty output and no error, and dropping it from a
children list leaves the rendered output of the list unchanged. -/
theorem C6_dangling_child_skipped (skipEmpty : Bool) (content : Snapshot)
    (fuel e : Nat) (h : findRow content e = none) :
    draw_entity skipEmpty content fuel e = some [] ∧
    ∀ rest, draw_children skipEmpty content (fuel + 1) (e :: rest) =
      draw_children skipEmpty content (fuel + 1) rest := by
  have h1 : draw_entity skipEmpty content fuel e = some [] := by
    rw [draw_entity]
    simp [h]
  refine ⟨h1, fun rest => ?_⟩
  rw [draw_children, h1]
  cases hdc : draw_children skipEmpty content (fuel + 1) rest <;> simp [hdc]

/-- Witness for C6 at a concrete snapshot not holding entity 2. -/
theorem C6_witness :
    draw_entity true [(1, { entity := 1, components := [], has := [] })] 4 2 =
      some [] ∧
    draw_children true [(1, { entity := 1, components := [], has := [] })] 4 [2] =
      draw_children true [(1, { entity := 1, components := [], has := [] })] 4 [] :=
  ⟨(C6_dangling_child_skipped true
      [(1, { entity := 1, components := [], has := [] })] 4 2 rfl).1,
   (C6_dangling_child_skipped true
      [(1, { entity := 1, components := [], has := [] })] 3 2 rfl).2 []⟩

/-- C10: when an entity carries a Children component whose value is not an array, the
expanded body of that entity is empty, with neither the Children section nor the
generic component list; an entity without a Children component still gets its
component list as the body. -/
theorem C10_non_array_children_ends_body :
    (∀ (skipEmpty : Bool) (content : Snapshot) (fuel e : Nat)
        (item : BrpQueryRow) (v : JVal) (lbl : String),
      findRow content e = some item →
      slookup item.components childrenKey = some v →
      v.asArray = none →
      entityHeaderLabel e item = some lbl →
      draw_entity skipEmpty content fuel e =
        some [RenderItem.header lbl [], RenderItem.separator]) ∧
    (∀ (skipEmpty : Bool) (content : Snapshot) (fuel e : Nat)
        (item : BrpQueryRow) (lbl : String),
      findRow content e = some item →
      slookup item.components childrenKey = none →
      entityHeaderLabel e item = some lbl →
      (skipEmpty && item.components.isEmpty) = false →
      draw_entity skipEmpty content fuel e =
        some [RenderItem.header lbl (componentsSection item),
              RenderItem.separator]) := by
  constructor
  · intro skipEmpty content fuel e item v lbl h1 h2 h3 h4
    have hne : item.components.isEmpty = false := by
      cases hc : item.components with
      | nil => rw [hc] at h2; simp [slookup] at h2
      | cons a l => simp [List.isEmpty]
    rw [draw_entity]
    simp [h1, hne, h4, h2, h3]
  · intro skipEmpty content fuel e item lbl h1 h2 h3 hg
    rw [draw_entity]
    simp [h1, hg, h3, h2]

/-- Witness for C10: a non-array Children value empties the body at entity 1, and an
ordinary entity 2 without Children keeps its component list. -/
theorem C10_witness :
    draw_entity false
      [(1, { entity := 1, components := [(childrenKey, JVal.num 3)], has := [] })]
      0 1 = some [RenderItem.header "1" [], RenderItem.separator] ∧
    draw_entity false
      [(2, { entity := 2,
             components := [("idle_rpg::game::player::Player", JVal.obj [])],
             has := [] })] 0 2 =
      some [RenderItem.header "2" (componentsSection
              { entity := 2,
                components := [("idle_rpg::game::player::Player", JVal.obj [])],
                has := [] }),
            RenderItem.separator] :=
  ⟨C10_non_array_children_ends_body.1 false
      [(1, { entity := 1, components := [(childrenKey, JVal.num 3)], has := [] })]
      0 1 { entity := 1, components := [(childrenKey, JVal.num 3)], has := [] }
      (JVal.num 3) "1" rfl rfl rfl rfl,
   C10_non_array_children_ends_body.2 false
      [(2, { entity := 2,
             components := [("idle_rpg::game::player::Player", JVal.obj [])],
             has := [] })]
      0 2 { entity := 2,
            components := [("idle_rpg::game::player::Player", JVal.obj [])],
            has := [] } "2" rfl rfl rfl rfl⟩

/-- C3: two panic paths of the core on malformed input, contradicting the claim that
no input can crash it: an ok HTTP response whose body is not valid envelope JSON
makes the fetch callback unwrap the parse, and a Name component value that is an
object without a name field makes the entity renderer unwrap the field access; both
are the panic marker none in the embedding. -/
theorem C3_panic_paths_exist :
    fetchCallback { download := Download.none, components := [], errorInfo := none }
      (FetchOutcome.httpResponse true
        (ResponseBody.invalidJson "plain text body, not a JSON envelope")) = none ∧
    draw_entity false
      [(1, { entity := 1, components := [(nameKey, JVal.obj [])], has := [] })]
      2 1 = none := by
  constructor
  · rfl
  · rw [draw_entity]
    simp [entityHeaderLabel, nameFromVal, slookup, findRow, nameKey,
          JVal.asObject, JVal.asStr]

end BevyRemoteInspector
